import Mathlib

/-!
Shallow embedding of `aeneas/ttswrappers/elevenlabsttswrapper.py`
(class `ElevenLabsTTSWrapper`), centred on the method
`_synthesize_single_python_helper`.

The method is modelled as a pure function from its inputs (runtime
configuration, text, voice code, optional output path) together with an
explicit environment (the sequence of provider responses for the POST
requests, the two paths handed out by `gf.tmp_file`, and whether spawning
the ffmpeg subprocess raises `OSError`) to a trace of externally visible
events (sleeps, POST requests, file writes, temp-file creations/deletions,
process spawns) paired with either a raised error or the returned tuple.
-/

namespace ElevenLabsTTSWrapper

/-- Class attribute `SAMPLE_RATE = 16000` (line 260 of the source). -/
def SAMPLE_RATE : ℕ := 16000

/-- Class attribute `SAMPLE_FORMAT = "pcm"` (line 257 of the source). -/
def SAMPLE_FORMAT : String := "pcm"

/-- Class attribute `URL = "https://api.elevenlabs.io"` (line 265). -/
def URL : String := "https://api.elevenlabs.io"

/-- Class attribute `END_POINT = "/v1/text-to-speech/"` (line 267). -/
def END_POINT : String := "/v1/text-to-speech/"

/-- Class attribute `OUTPUT_AUDIO_FORMAT = ("pcm_s16le", 1, 16000)` (line 253). -/
def OUTPUT_AUDIO_FORMAT : String × ℕ × ℕ := ("pcm_s16le", 1, 16000)

/-- Modelled from the spec: the `Language` constants of `aeneas.language`
(the module is not under `src/`) are enumerated locale tags, lowercase
generic language codes; the region variants are string literals given
directly in the source (lines 155-186). -/
def CYM : String := "cym"

def DAN : String := "dan"

def DEU : String := "deu"

def ENG : String := "eng"

def FRA : String := "fra"

def ISL : String := "isl"

def ITA : String := "ita"

def JPN : String := "jpn"

def NLD : String := "nld"

def NOR : String := "nor"

def POL : String := "pol"

def POR : String := "por"

def RON : String := "ron"

def RUS : String := "rus"

def SPA : String := "spa"

def SWE : String := "swe"

def TUR : String := "tur"

def ENG_AUS : String := "eng-AUS"

def ENG_GBR : String := "eng-GBR"

def ENG_IND : String := "eng-IND"

def ENG_USA : String := "eng-USA"

def ENG_WLS : String := "eng-WLS"

def FRA_CAN : String := "fra-CAN"

def FRA_FRA : String := "fra-FRA"

def POR_BRA : String := "por-BRA"

def POR_PRT : String := "por-PRT"

def SPA_ESP : String := "spa-ESP"

def SPA_USA : String := "spa-USA"

/-- Class attribute `LANGUAGE_TO_VOICE_CODE` (lines 221-250): the static
locale-code to provider-voice-name table, as an association list in source
order. -/
def LANGUAGE_TO_VOICE_CODE : List (String × String) :=
  [(CYM, "Gwyneth"),
   (DAN, "Naja"),
   (DEU, "Marlene"),
   (ENG, "Joanna"),
   (FRA, "Celine"),
   (ISL, "Dora"),
   (ITA, "Carla"),
   (JPN, "Mizuki"),
   (NLD, "Lotte"),
   (NOR, "Liv"),
   (POL, "Maja"),
   (POR, "Ines"),
   (RON, "Carmen"),
   (RUS, "Tatyana"),
   (SPA, "Conchita"),
   (SWE, "Astrid"),
   (TUR, "Filiz"),
   (ENG_AUS, "Nicole"),
   (ENG_GBR, "Emma"),
   (ENG_IND, "Raveena"),
   (ENG_USA, "Joanna"),
   (ENG_WLS, "Geraint"),
   (FRA_FRA, "Celine"),
   (FRA_CAN, "Chantal"),
   (POR_BRA, "Vitoria"),
   (POR_PRT, "Ines"),
   (SPA_ESP, "Conchita"),
   (SPA_USA, "Penelope")]

/-- Class attribute `DEFAULT_LANGUAGE = ENG_USA` (line 251). -/
def DEFAULT_LANGUAGE : String := ENG_USA

/-- The runtime-configuration values read by
`_synthesize_single_python_helper`.  `aeneas.runtimeconfiguration` is not
under `src/`; each field models the stored value for the key of the same
name.  Stability and similarity boost are kept after the `str()`
conversion the source applies at lines 316-317, since only those strings
are observable in the request body. -/
structure RuntimeConfiguration where
  eleven_labs_voice_id : String
  eleven_labs_api_key : String
  eleven_labs_stability : String
  eleven_labs_similarity_boost : String
  tts_api_sleep : ℚ
  tts_api_retry_attempts : ℕ
deriving Repr, DecidableEq

/-- Outcome of one `requests.post` call, supplied by the environment:
either the call raises (network failure, line 321) or it yields a
response with a status code and body bytes. -/
inductive PostOutcome where
  | exn : PostOutcome
  | response (status : ℕ) (content : List ℕ) : PostOutcome
deriving Repr, DecidableEq

/-- Externally visible events of one helper call, in program order. -/
inductive Event where
  /-- `time.sleep(sleep_delay)` (line 307). -/
  | throttleSleep (delay : ℚ) : Event
  /-- `requests.post(url, headers=..., json=...)` (lines 311-320): the
  URL, the two header values, and the JSON body fields. -/
  | post (url apiKey accept text stability similarityBoost : String) : Event
  /-- The `wave` module writing `data` at `path` with the declared frame
  rate, channel count and sample width (lines 342-347). -/
  | writeWav (path : String) (framerate nchannels sampwidth : ℕ)
      (data : List ℕ) : Event
  /-- `gf.tmp_file(u".wav")` creating a temporary file (lines 369-370). -/
  | tmpFile (path : String) : Event
  /-- Writing `data` to the file at `path` (lines 371-372). -/
  | fileWrite (path : String) (data : List ℕ) : Event
  /-- `subprocess.Popen(args)` plus `communicate` (lines 384-393); `ok`
  is false when the spawn raised `OSError` (line 394). -/
  | spawn (args : List String) (ok : Bool) : Event
  /-- `os.remove(path)`.  `_synthesize_single_python_helper` never emits
  this event; it is part of the vocabulary so that absence of deletion is
  expressible. -/
  | deleteFile (path : String) : Event
deriving Repr, DecidableEq

/-- The errors the helper can raise.  The source raises `ValueError` via
`log_exc` with a message; the message distinguishes the cases the spec
names `NetworkError` and `SynthesisError`. -/
inductive TTSErr where
  | valueError (msg : String) : TTSErr
deriving Repr, DecidableEq

/-- Message of the `ValueError` raised on a POST exception (line 322). -/
def postExceptionMsg : String := "Unexpected exception on HTTP POST. Are you offline?"

/-- Message of the `ValueError` raised when all attempts failed (line 334);
the spec calls this error `SynthesisError`. -/
def allAttemptsFailedMsg : String := "All API requests returned status code != 200"

/-- Message of the `ValueError` numpy raises in `fromstring` when the
byte length is not a multiple of the two-byte item size (line 407). -/
def fromstringOddLengthMsg : String := "string size must be a multiple of element size"

/-- The returned tuple `(audio_length, audio_sample_rate, audio_format,
audio_samples)` built at lines 400-410. -/
structure SynthesisResult where
  audio_length : ℚ
  audio_sample_rate : ℕ
  audio_format : String
  audio_samples : List ℚ
deriving Repr, DecidableEq

/-- UTF-8 encoding of one code point (the byte view `requests`/numpy take
of a Python `str`). -/
def utf8Bytes (n : ℕ) : List ℕ :=
  if n < 128 then [n]
  else if n < 2048 then [192 + n / 64, 128 + n % 64]
  else if n < 65536 then [224 + n / 4096, 128 + n / 64 % 64, 128 + n % 64]
  else [240 + n / 262144, 128 + n / 4096 % 64, 128 + n / 64 % 64, 128 + n % 64]

/-- The byte buffer `numpy.fromstring` reads from a `str` argument (its
UTF-8 encoding). -/
def strBytes (s : String) : List ℕ :=
  (s.data.map fun c => utf8Bytes c.toNat).flatten

/-- `numpy.fromstring(buf, dtype=numpy.int16)`: consecutive byte pairs as
little-endian signed 16-bit integers. -/
def decodeInt16LE : List ℕ → List ℤ
  | lo :: hi :: rest =>
      let u := lo + 256 * hi
      (if u < 32768 then (u : ℤ) else (u : ℤ) - 65536) :: decodeInt16LE rest
  | _ => []

/-- The `Accept` header value
`"audio/x-wav;codec=pcm;bit=16;rate=%d" % self.SAMPLE_RATE` (line 281). -/
def acceptHeader : String :=
  "audio/x-wav;codec=pcm;bit=16;rate=" ++ toString SAMPLE_RATE

/-- The retry loop of lines 305-331: `while attempts > 0`, sleep, POST,
stop on status 200, raise on a POST exception, otherwise decrement
`attempts`; falling out of the loop reaches the `attempts <= 0` check at
line 333 which raises.  `callIdx` numbers the POST calls so the
environment `provider` can answer each one.  Returns the event trace and
either the successful response content or the raised error. -/
def retryLoop (provider : ℕ → PostOutcome) (delay : ℚ)
    (url apiKey accept text stability similarityBoost : String) :
    ℕ → ℕ → List Event × Except TTSErr (List ℕ)
  | 0, _ => ([], .error (.valueError allAttemptsFailedMsg))
  | n + 1, callIdx =>
      let pre : List Event :=
        [.throttleSleep delay, .post url apiKey accept text stability similarityBoost]
      match provider callIdx with
      | .exn => (pre, .error (.valueError postExceptionMsg))
      | .response status content =>
          if status = 200 then (pre, .ok content)
          else
            let r := retryLoop provider delay url apiKey accept text stability
              similarityBoost n (callIdx + 1)
            (pre ++ r.1, r.2)

/-- Lines 336-410, the part of the helper after the retry loop succeeded
with body `content`: optionally wrap the raw response bytes in a WAVE
container at `output_file_path` (lines 337-348), create the two temp
files (lines 369-370), write the raw bytes to the input temp file (lines
371-372), spawn ffmpeg ignoring any `OSError` (lines 374-396), and build
the returned tuple from the OUTPUT TEMP FILE PATH STRING: frame count
`len(output_file_path_2) / 2` (line 401) and samples
`numpy.fromstring(output_file_path_2, dtype=numpy.int16) / 32768`
(line 407).  `ffmpegSpawnFails` says whether `Popen` raised `OSError`;
the exit status of ffmpeg and the bytes it may have written to the output
temp file are never inspected by the source, so they do not appear here. -/
def afterSuccess (output_file_path : Option String)
    (tmpOutPath tmpInPath : String) (ffmpegSpawnFails : Bool)
    (content : List ℕ) : List Event × Except TTSErr SynthesisResult :=
  let saveEvents : List Event :=
    match output_file_path with
    | none => []
    | some p => [.writeWav p SAMPLE_RATE 1 2 content]
  let transcodeEvents : List Event :=
    [.tmpFile tmpOutPath, .tmpFile tmpInPath, .fileWrite tmpInPath content,
     .spawn ["ffmpeg", "-i", tmpInPath, "-c:a", "pcm_s16le",
             "-ar", toString SAMPLE_RATE, tmpOutPath] (!ffmpegSpawnFails)]
  let trace := saveEvents ++ transcodeEvents
  let bytes := strBytes tmpOutPath
  if bytes.length % 2 = 0 then
    let audio_samples := (decodeInt16LE bytes).map fun z : ℤ => (z : ℚ) / 32768
    let number_of_frames : ℚ := (tmpOutPath.length : ℚ) / 2
    let audio_length : ℚ := number_of_frames / (SAMPLE_RATE : ℚ)
    (trace, .ok ⟨audio_length, SAMPLE_RATE, "pcm16", audio_samples⟩)
  else
    (trace, .error (.valueError fromstringOddLengthMsg))

/-- The retry loop as invoked by the helper: the URL is
`self.URL + self.END_POINT + voice_id` (lines 294-298) where `voice_id`
comes from the configuration (line 276), and the loop runs with the
configured sleep delay and attempt budget (lines 301-302), starting at
call index 0. -/
def runRetry (rconf : RuntimeConfiguration) (text : String)
    (provider : ℕ → PostOutcome) : List Event × Except TTSErr (List ℕ) :=
  retryLoop provider rconf.tts_api_sleep
    (URL ++ END_POINT ++ rconf.eleven_labs_voice_id)
    rconf.eleven_labs_api_key acceptHeader text
    rconf.eleven_labs_stability rconf.eleven_labs_similarity_boost
    rconf.tts_api_retry_attempts 0

/-- `_synthesize_single_python_helper(text, voice_code, output_file_path,
...)` (lines 272-410).  The voice id is read from the configuration at
line 276; `voice_code` is a parameter of the source method that its body
never reads.  `provider` gives the outcome of each POST call;
`tmpOutPath` and `tmpInPath` are the paths `gf.tmp_file` returns at lines
369 and 370; `ffmpegSpawnFails` tells whether `subprocess.Popen` raises
`OSError`.  Returns the full event trace and the raised error or returned
tuple. -/
def synthesizeSingleHelper (rconf : RuntimeConfiguration)
    (text voice_code : String) (output_file_path : Option String)
    (provider : ℕ → PostOutcome) (tmpOutPath tmpInPath : String)
    (ffmpegSpawnFails : Bool) : List Event × Except TTSErr SynthesisResult :=
  match runRetry rconf text provider with
  | (evs, .error e) => (evs, .error e)
  | (evs, .ok content) =>
      let p := afterSuccess output_file_path tmpOutPath tmpInPath
        ffmpegSpawnFails content
      (evs ++ p.1, p.2)

/-- Paths of temp files created during a trace. -/
def createdTempFiles (t : List Event) : List String :=
  t.filterMap fun e =>
    match e with
    | .tmpFile p => some p
    | _ => none

/-- Paths deleted during a trace. -/
def deletedFiles (t : List Event) : List String :=
  t.filterMap fun e =>
    match e with
    | .deleteFile p => some p
    | _ => none

/-- Temp files created during the trace and never deleted afterwards. -/
def remainingTempFiles (t : List Event) : List String :=
  (createdTempFiles t).filter fun p => decide (p ∉ deletedFiles t)

/-- The WAVE writes a trace performs at a given path. -/
def wavWritesAt (t : List Event) (path : String) : List (ℕ × ℕ × ℕ × List ℕ) :=
  t.filterMap fun e =>
    match e with
    | .writeWav p fr nc sw data =>
        if p = path then some (fr, nc, sw, data) else none
    | _ => none

/-- Whether an event is a throttle sleep or a POST. -/
def isThrottleOrPost : Event → Bool
  | .throttleSleep _ => true
  | .post _ _ _ _ _ _ => true
  | _ => false

/-- Whether an event is a POST. -/
def isPost : Event → Bool
  | .post _ _ _ _ _ _ => true
  | _ => false

/-- Number of POST calls in a trace. -/
def postCount (t : List Event) : ℕ := (t.filter isPost).length

/-- The expected shape of the retry-loop trace: `m` repetitions of one
throttle sleep immediately followed by one POST. -/
def retryBlocks (d : ℚ) (url apiKey accept text stability similarityBoost : String) :
    ℕ → List Event
  | 0 => []
  | m + 1 =>
      .throttleSleep d :: .post url apiKey accept text stability similarityBoost ::
        retryBlocks d url apiKey accept text stability similarityBoost m

/-- Concrete runtime configuration used as a test fixture. -/
def rcA : RuntimeConfiguration :=
  ⟨"voiceA", "keyA", "0.5", "0.75", 1, 3⟩

/-- Concrete output temp path fixture, 16 ASCII characters. -/
def tmpOutA : String := "/tmp/tmpout1.wav"

/-- Concrete input temp path fixture. -/
def tmpInA : String := "/tmp/tmpin12.wav"

/-- Provider fixture answering every POST with status 200 and a four-byte
body. -/
def providerA : ℕ → PostOutcome := fun _ => .response 200 [1, 2, 3, 4]

/-- The samples the helper computes from the fixture output temp path:
the UTF-8 bytes of `tmpOutA` decoded as little-endian int16 and divided
by 32768. -/
def pathSamplesA : List ℚ :=
  (decodeInt16LE (strBytes tmpOutA)).map fun z : ℤ => (z : ℚ) / 32768

/-- Second configuration fixture, with an attempt budget of two. -/
def rcB : RuntimeConfiguration :=
  ⟨"voiceB", "keyB", "0.3", "0.9", 2, 2⟩

/-- Provider fixture answering the first POST with 429 and every later
POST with 200 and a two-byte body. -/
def providerB : ℕ → PostOutcome :=
  fun k => if k = 0 then .response 429 [] else .response 200 [7, 8]

end ElevenLabsTTSWrapper

open ElevenLabsTTSWrapper

/-- If the first `n` POST calls (from `idx`) all return a non-200 status,
the loop with budget `n` performs exactly `n` sleep-POST blocks and ends
with the all-attempts-failed `ValueError`. -/
theorem retryLoop_all_non200 (provider : ℕ → PostOutcome) (d : ℚ)
    (url key acc text st sb : String) :
    ∀ (n idx : ℕ),
      (∀ k, k < n → ∃ s c, provider (idx + k) = .response s c ∧ s ≠ 200) →
      retryLoop provider d url key acc text st sb n idx =
        (retryBlocks d url key acc text st sb n,
         .error (.valueError allAttemptsFailedMsg))
  | 0, _idx, _ => by simp [retryLoop, retryBlocks]
  | n + 1, idx, h => by
      obtain ⟨s, c, hpc, hs⟩ := h 0 (Nat.succ_pos n)
      rw [Nat.add_zero] at hpc
      have ih := retryLoop_all_non200 provider d url key acc text st sb n (idx + 1)
        (fun k hk => by
          have hx := h (k + 1) (Nat.succ_lt_succ hk)
          rwa [show idx + (k + 1) = idx + 1 + k by omega] at hx)
      simp [retryLoop, retryBlocks, hpc, hs, ih]

/-- If the first `n` POST calls (from `idx`) return non-200 statuses and
call `idx + n` returns 200 with body `content`, the loop with budget
`n + 1` performs exactly `n + 1` sleep-POST blocks and succeeds with
`content`. -/
theorem retryLoop_success_last (provider : ℕ → PostOutcome) (d : ℚ)
    (url key acc text st sb : String) (content : List ℕ) :
    ∀ (n idx : ℕ),
      (∀ k, k < n → ∃ s c, provider (idx + k) = .response s c ∧ s ≠ 200) →
      provider (idx + n) = .response 200 content →
      retryLoop provider d url key acc text st sb (n + 1) idx =
        (retryBlocks d url key acc text st sb (n + 1), .ok content)
  | 0, idx, _, hsucc => by
      rw [Nat.add_zero] at hsucc
      simp [retryLoop, retryBlocks, hsucc]
  | n + 1, idx, hfail, hsucc => by
      obtain ⟨s, c, hpc, hs⟩ := hfail 0 (Nat.succ_pos n)
      rw [Nat.add_zero] at hpc
      have ih := retryLoop_success_last provider d url key acc text st sb content n (idx + 1)
        (fun k hk => by
          have hx := hfail (k + 1) (Nat.succ_lt_succ hk)
          rwa [show idx + (k + 1) = idx + 1 + k by omega] at hx)
        (by rwa [show idx + 1 + n = idx + (n + 1) by omega])
      conv_lhs => rw [retryLoop]
      simp only [hpc]
      rw [if_neg hs, ih]
      simp [retryBlocks]

/-- Whatever the provider answers, the retry-loop trace is some number of
sleep-POST blocks. -/
theorem retryLoop_trace_shape (provider : ℕ → PostOutcome) (d : ℚ)
    (url key acc text st sb : String) :
    ∀ (n idx : ℕ), ∃ m,
      (retryLoop provider d url key acc text st sb n idx).1 =
        retryBlocks d url key acc text st sb m
  | 0, _idx => ⟨0, by simp [retryLoop, retryBlocks]⟩
  | n + 1, idx => by
      cases hpc : provider idx with
      | exn => exact ⟨1, by simp [retryLoop, retryBlocks, hpc]⟩
      | response s c =>
          by_cases hs : s = 200
          · exact ⟨1, by simp [retryLoop, retryBlocks, hpc, hs]⟩
          · obtain ⟨m, hm⟩ := retryLoop_trace_shape provider d url key acc text st sb n (idx + 1)
            exact ⟨m + 1, by simp [retryLoop, retryBlocks, hpc, hs, hm]⟩

/-- The POST events of `m` sleep-POST blocks are `m` copies of the POST. -/
theorem retryBlocks_filter_post (d : ℚ) (url key acc text st sb : String) :
    ∀ m, (retryBlocks d url key acc text st sb m).filter isPost =
      List.replicate m (.post url key acc text st sb)
  | 0 => by simp [retryBlocks]
  | m + 1 => by
      simp [retryBlocks, List.filter, isPost, List.replicate,
        retryBlocks_filter_post d url key acc text st sb m]

/-- Every event of a sleep-POST block trace is a sleep or a POST. -/
theorem retryBlocks_filter_throttleOrPost (d : ℚ) (url key acc text st sb : String) :
    ∀ m, (retryBlocks d url key acc text st sb m).filter isThrottleOrPost =
      retryBlocks d url key acc text st sb m
  | 0 => by simp [retryBlocks]
  | m + 1 => by
      simp [retryBlocks, List.filter, isThrottleOrPost,
        retryBlocks_filter_throttleOrPost d url key acc text st sb m]

/-- `m` sleep-POST blocks contain `m` POST calls. -/
theorem retryBlocks_postCount (d : ℚ) (url key acc text st sb : String) (m : ℕ) :
    postCount (retryBlocks d url key acc text st sb m) = m := by
  simp [postCount, retryBlocks_filter_post]

/-- Sleep-POST blocks create no temp files. -/
theorem retryBlocks_createdTempFiles (d : ℚ) (url key acc text st sb : String) :
    ∀ m, createdTempFiles (retryBlocks d url key acc text st sb m) = []
  | 0 => by simp [retryBlocks, createdTempFiles]
  | m + 1 => by
      simpa [retryBlocks, createdTempFiles] using
        retryBlocks_createdTempFiles d url key acc text st sb m

/-- Sleep-POST blocks delete no files. -/
theorem retryBlocks_deletedFiles (d : ℚ) (url key acc text st sb : String) :
    ∀ m, deletedFiles (retryBlocks d url key acc text st sb m) = []
  | 0 => by simp [retryBlocks, deletedFiles]
  | m + 1 => by
      simpa [retryBlocks, deletedFiles] using
        retryBlocks_deletedFiles d url key acc text st sb m

/-- Sleep-POST blocks write no WAVE files. -/
theorem retryBlocks_wavWritesAt (d : ℚ) (url key acc text st sb p : String) :
    ∀ m, wavWritesAt (retryBlocks d url key acc text st sb m) p = []
  | 0 => by simp [retryBlocks, wavWritesAt]
  | m + 1 => by
      simpa [retryBlocks, wavWritesAt] using
        retryBlocks_wavWritesAt d url key acc text st sb p m

/-- The trace of the post-request phase, independent of the parity check
on the decoded buffer. -/
theorem afterSuccess_trace (ofp : Option String) (tout tin : String)
    (sf : Bool) (content : List ℕ) :
    (afterSuccess ofp tout tin sf content).1 =
      (match ofp with
        | none => []
        | some p => [.writeWav p SAMPLE_RATE 1 2 content]) ++
      [.tmpFile tout, .tmpFile tin, .fileWrite tin content,
       .spawn ["ffmpeg", "-i", tin, "-c:a", "pcm_s16le",
               "-ar", toString SAMPLE_RATE, tout] (!sf)] := by
  unfold afterSuccess
  cases ofp <;> by_cases h : (strBytes tout).length % 2 = 0 <;> simp [h]

/-- The post-request phase creates exactly the two temp files, in
creation order. -/
theorem afterSuccess_createdTempFiles (ofp : Option String) (tout tin : String)
    (sf : Bool) (content : List ℕ) :
    createdTempFiles (afterSuccess ofp tout tin sf content).1 = [tout, tin] := by
  rw [afterSuccess_trace]
  cases ofp <;> simp [createdTempFiles]

/-- The post-request phase deletes nothing. -/
theorem afterSuccess_deletedFiles (ofp : Option String) (tout tin : String)
    (sf : Bool) (content : List ℕ) :
    deletedFiles (afterSuccess ofp tout tin sf content).1 = [] := by
  rw [afterSuccess_trace]
  cases ofp <;> simp [deletedFiles]

/-- The post-request phase performs no sleeps and no POSTs. -/
theorem afterSuccess_filter_throttleOrPost (ofp : Option String) (tout tin : String)
    (sf : Bool) (content : List ℕ) :
    ((afterSuccess ofp tout tin sf content).1).filter isThrottleOrPost = [] := by
  rw [afterSuccess_trace]
  cases ofp <;> simp [isThrottleOrPost]

/-- The post-request phase performs no POSTs. -/
theorem afterSuccess_postCount (ofp : Option String) (tout tin : String)
    (sf : Bool) (content : List ℕ) :
    postCount (afterSuccess ofp tout tin sf content).1 = 0 := by
  rw [postCount, afterSuccess_trace]
  cases ofp <;> simp [isPost]

/-- When the decoded buffer has even length, the post-request phase
returns the tuple built from the output temp file path string. -/
theorem afterSuccess_result_even (ofp : Option String) (tout tin : String)
    (sf : Bool) (content : List ℕ)
    (h : (strBytes tout).length % 2 = 0) :
    (afterSuccess ofp tout tin sf content).2 =
      .ok ⟨(tout.length : ℚ) / 2 / (SAMPLE_RATE : ℚ), SAMPLE_RATE, "pcm16",
           (decodeInt16LE (strBytes tout)).map fun z : ℤ => (z : ℚ) / 32768⟩ := by
  unfold afterSuccess
  simp [h]

/-- Unfolding of the helper when the retry loop raised. -/
theorem synthesizeSingleHelper_retry_error (rconf : RuntimeConfiguration)
    (text vc : String) (ofp : Option String) (provider : ℕ → PostOutcome)
    (tout tin : String) (sf : Bool) (evs : List Event) (e : TTSErr)
    (h : runRetry rconf text provider = (evs, .error e)) :
    synthesizeSingleHelper rconf text vc ofp provider tout tin sf = (evs, .error e) := by
  unfold synthesizeSingleHelper
  rw [h]

/-- Unfolding of the helper when the retry loop succeeded. -/
theorem synthesizeSingleHelper_retry_ok (rconf : RuntimeConfiguration)
    (text vc : String) (ofp : Option String) (provider : ℕ → PostOutcome)
    (tout tin : String) (sf : Bool) (evs : List Event) (content : List ℕ)
    (h : runRetry rconf text provider = (evs, .ok content)) :
    synthesizeSingleHelper rconf text vc ofp provider tout tin sf =
      (evs ++ (afterSuccess ofp tout tin sf content).1,
       (afterSuccess ofp tout tin sf content).2) := by
  unfold synthesizeSingleHelper
  rw [h]

/-- Every code point of a `Char` is below 1114112. -/
theorem char_toNat_lt (c : Char) : c.toNat < 1114112 := by
  rcases c.valid with h | ⟨_h1, h2⟩
  · exact Nat.lt_trans h (by norm_num)
  · exact h2

/-- UTF-8 encoding of a valid code point produces bytes below 256. -/
theorem utf8Bytes_lt (n : ℕ) (hn : n < 1114112) : ∀ b ∈ utf8Bytes n, b < 256 := by
  intro b hb
  unfold utf8Bytes at hb
  split_ifs at hb <;> simp at hb <;> omega

/-- Every byte of the byte view of a string is below 256. -/
theorem strBytes_lt (s : String) : ∀ b ∈ strBytes s, b < 256 := by
  intro b hb
  unfold strBytes at hb
  rw [List.mem_flatten] at hb
  obtain ⟨l, hl, hbl⟩ := hb
  rw [List.mem_map] at hl
  obtain ⟨c, _hc, rfl⟩ := hl
  exact utf8Bytes_lt c.toNat (char_toNat_lt c) b hbl

/-- All values decoded as little-endian int16 from bytes below 256 lie in
the signed 16-bit range. -/
theorem decodeInt16LE_bounds : ∀ (bs : List ℕ), (∀ b ∈ bs, b < 256) →
    ∀ z ∈ decodeInt16LE bs, -32768 ≤ z ∧ z ≤ 32767
  | [], _, z, hz => by simp [decodeInt16LE] at hz
  | [_b], _, z, hz => by simp [decodeInt16LE] at hz
  | lo :: hi :: rest, hb, z, hz => by
      have hlo : lo < 256 := hb lo (by simp)
      have hhi : hi < 256 := hb hi (by simp)
      simp only [decodeInt16LE, List.mem_cons] at hz
      rcases hz with hz | hz
      · subst hz
        split_ifs with hu <;> constructor <;> omega
      · exact decodeInt16LE_bounds rest (fun b h => hb b (by simp [h])) z hz

/-- A signed 16-bit value divided by 32768 lies in the unit interval. -/
theorem sample_in_unit (z : ℤ) (h1 : -32768 ≤ z) (h2 : z ≤ 32767) :
    -1 ≤ (z : ℚ) / 32768 ∧ (z : ℚ) / 32768 ≤ 1 := by
  have h1q : (-32768 : ℚ) ≤ (z : ℚ) := by exact_mod_cast h1
  have h2q : (z : ℚ) ≤ 32767 := by exact_mod_cast h2
  constructor
  · rw [le_div_iff (by norm_num : (0 : ℚ) < 32768)]
    linarith
  · rw [div_le_one (by norm_num : (0 : ℚ) < 32768)]
    linarith

/-- Temp-file creations distribute over trace concatenation. -/
theorem createdTempFiles_append (a b : List Event) :
    createdTempFiles (a ++ b) = createdTempFiles a ++ createdTempFiles b := by
  simp [createdTempFiles]

/-- Deletions distribute over trace concatenation. -/
theorem deletedFiles_append (a b : List Event) :
    deletedFiles (a ++ b) = deletedFiles a ++ deletedFiles b := by
  simp [deletedFiles]

/-- WAVE writes distribute over trace concatenation. -/
theorem wavWritesAt_append (a b : List Event) (p : String) :
    wavWritesAt (a ++ b) p = wavWritesAt a p ++ wavWritesAt b p := by
  simp [wavWritesAt]

/-- POST counts add over trace concatenation. -/
theorem postCount_append (a b : List Event) :
    postCount (a ++ b) = postCount a + postCount b := by
  simp [postCount]

/-- The trace of `runRetry` is some number of sleep-POST blocks. -/
theorem runRetry_trace_shape (rconf : RuntimeConfiguration) (text : String)
    (provider : ℕ → PostOutcome) :
    ∃ m, (runRetry rconf text provider).1 =
      retryBlocks rconf.tts_api_sleep (URL ++ END_POINT ++ rconf.eleven_labs_voice_id)
        rconf.eleven_labs_api_key acceptHeader text rconf.eleven_labs_stability
        rconf.eleven_labs_similarity_boost m :=
  retryLoop_trace_shape provider rconf.tts_api_sleep
    (URL ++ END_POINT ++ rconf.eleven_labs_voice_id) rconf.eleven_labs_api_key
    acceptHeader text rconf.eleven_labs_stability rconf.eleven_labs_similarity_boost
    rconf.tts_api_retry_attempts 0

/-- The POST events of the post-request phase: there are none. -/
theorem afterSuccess_filter_post (ofp : Option String) (tout tin : String)
    (sf : Bool) (content : List ℕ) :
    ((afterSuccess ofp tout tin sf content).1).filter isPost = [] := by
  rw [afterSuccess_trace]
  cases ofp <;> simp [isPost]

/-- The post-request phase writes one WAVE file at the requested output
path: declared rate `SAMPLE_RATE`, mono, two bytes per sample, and the
RAW response body as payload. -/
theorem afterSuccess_wavWritesAt_self (p tout tin : String) (sf : Bool)
    (content : List ℕ) :
    wavWritesAt (afterSuccess (some p) tout tin sf content).1 p =
      [(SAMPLE_RATE, 1, 2, content)] := by
  rw [afterSuccess_trace]
  simp [wavWritesAt]

/-- With the fixture configuration (three attempts) and a provider that
answers 200 immediately, the retry loop performs one sleep-POST block and
returns the response body. -/
theorem runRetry_rcA_any (text : String) (content : List ℕ) :
    runRetry rcA text (fun _ => .response 200 content) =
      ([.throttleSleep 1,
        .post (URL ++ END_POINT ++ "voiceA") "keyA" acceptHeader text "0.5" "0.75"],
       .ok content) := rfl

/-- Specialization of the previous lemma to the fixture provider. -/
theorem runRetry_rcA (text : String) :
    runRetry rcA text providerA =
      ([.throttleSleep 1,
        .post (URL ++ END_POINT ++ "voiceA") "keyA" acceptHeader text "0.5" "0.75"],
       .ok [1, 2, 3, 4]) :=
  runRetry_rcA_any text [1, 2, 3, 4]

/-- Concrete evaluation of the helper on the fixtures: whatever the
response body, the output path, or the spawn outcome, the returned tuple
is built from the 16-character output temp path: duration
16 / 2 / 16000 = 1/2000 seconds and samples decoded from the path
characters. -/
theorem helper_result_rcA (text vc : String) (ofp : Option String)
    (content : List ℕ) (sf : Bool) :
    (synthesizeSingleHelper rcA text vc ofp (fun _ => .response 200 content)
        tmpOutA tmpInA sf).2 =
      .ok ⟨1 / 2000, 16000, "pcm16", pathSamplesA⟩ := by
  rw [synthesizeSingleHelper_retry_ok rcA text vc ofp _ tmpOutA tmpInA sf _ content
    (runRetry_rcA_any text content)]
  dsimp only
  rw [afterSuccess_result_even ofp tmpOutA tmpInA sf content (by decide)]
  have hlen : tmpOutA.length = 16 := by decide
  simp only [Except.ok.injEq, SynthesisResult.mk.injEq, hlen, pathSamplesA, SAMPLE_RATE]
  norm_num

/-- Claim C1 (code bug evaluation).  The claim states that the returned
duration is frameCount / sampleRate with frameCount parsed from the
transcoded WAVE bytes, and that the samples are decoded from those bytes.
The code instead uses the output temp file PATH STRING (lines 401 and 407
of the source): on a 32000-byte response transcoded to audio, with the
16-character output temp path, the call returns duration
16 / 2 / 16000 = 1/2000 seconds and eight samples decoded from the path
characters, and 1/2000 differs from the duration of any 32000-byte
16-bit mono buffer (32000 / 2 / 16000 = 1 second). -/
theorem C1_duration_and_samples_from_path :
    (synthesizeSingleHelper rcA "hello" "eng" none
        (fun _ => .response 200 (List.replicate 32000 0)) tmpOutA tmpInA false).2 =
      .ok ⟨1 / 2000, 16000, "pcm16", pathSamplesA⟩ ∧
    pathSamplesA.length = 8 ∧ ((1 : ℚ) / 2000) ≠ (32000 / 2 : ℚ) / 16000 :=
  ⟨helper_result_rcA "hello" "eng" none (List.replicate 32000 0) false,
   by decide, by norm_num⟩

/-- Claim C2 (counterexample).  On a concrete successful call both
temporary files created during the call remain on disk when the call
returns: the set of created-and-never-deleted temp files is the two temp
paths, not the empty set the claim requires. -/
theorem C2_counterexample_temp_files_remain :
    remainingTempFiles
        (synthesizeSingleHelper rcA "hi" "eng" none providerA tmpOutA tmpInA false).1 =
      [tmpOutA, tmpInA] ∧
    ([tmpOutA, tmpInA] : List String) ≠ [] := by
  exact ⟨by rfl, by decide⟩

/-- Claim C2 (amended).  The helper never deletes any file, and on every
call whose retry loop and decoding succeed, both the transcoded-output
and the raw-input temp file have been created and are still present when
the call returns. -/
theorem C2_amended_temp_files_never_deleted (rconf : RuntimeConfiguration)
    (text vc : String) (ofp : Option String) (provider : ℕ → PostOutcome)
    (tout tin : String) (sf : Bool) :
    deletedFiles (synthesizeSingleHelper rconf text vc ofp provider tout tin sf).1 = [] ∧
    (∀ r, (synthesizeSingleHelper rconf text vc ofp provider tout tin sf).2 = .ok r →
      remainingTempFiles
          (synthesizeSingleHelper rconf text vc ofp provider tout tin sf).1 =
        [tout, tin]) := by
  obtain ⟨m, hm⟩ := runRetry_trace_shape rconf text provider
  rcases hr : runRetry rconf text provider with ⟨evs, res⟩
  rw [hr] at hm
  dsimp only at hm
  cases res with
  | error e =>
      rw [synthesizeSingleHelper_retry_error rconf text vc ofp provider tout tin sf evs e hr]
      constructor
      · rw [hm]
        exact retryBlocks_deletedFiles _ _ _ _ _ _ _ m
      · intro r hcon
        simp at hcon
  | ok content =>
      rw [synthesizeSingleHelper_retry_ok rconf text vc ofp provider tout tin sf evs content hr]
      dsimp only
      constructor
      · rw [deletedFiles_append, hm, retryBlocks_deletedFiles, afterSuccess_deletedFiles]
        rfl
      · intro r _
        rw [remainingTempFiles, deletedFiles_append, createdTempFiles_append, hm,
          retryBlocks_deletedFiles, retryBlocks_createdTempFiles,
          afterSuccess_deletedFiles, afterSuccess_createdTempFiles]
        simp

/-- Claim C2 (witness for the amended claim) at the fixtures. -/
theorem C2_amended_temp_files_never_deleted_witness :
    deletedFiles
        (synthesizeSingleHelper rcA "hi" "eng" none providerA tmpOutA tmpInA false).1 = [] ∧
    remainingTempFiles
        (synthesizeSingleHelper rcA "hi" "eng" none providerA tmpOutA tmpInA false).1 =
      [tmpOutA, tmpInA] :=
  ⟨(C2_amended_temp_files_never_deleted rcA "hi" "eng" none providerA tmpOutA tmpInA false).1,
   (C2_amended_temp_files_never_deleted rcA "hi" "eng" none providerA tmpOutA tmpInA false).2
     ⟨1 / 2000, 16000, "pcm16", pathSamplesA⟩
     (helper_result_rcA "hi" "eng" none [1, 2, 3, 4] false)⟩

/-- Claim C3 (counterexample).  On a concrete call in which spawning the
transcoder raises an OS error, the call still returns a result instead of
failing with a transcode error: the `OSError` is caught and printed at
lines 394-396 of the source and execution continues. -/
theorem C3_counterexample_spawn_error_still_returns :
    (synthesizeSingleHelper rcA "hi" "eng" none providerA tmpOutA tmpInA true).2 =
      .ok ⟨1 / 2000, 16000, "pcm16", pathSamplesA⟩ :=
  helper_result_rcA "hi" "eng" none [1, 2, 3, 4] true

/-- Claim C3 (amended).  Transcoding failure never fails the call: once
the retry loop has succeeded (and the output temp path has even byte
length so the numpy decode does not raise), the helper returns the same
result whether or not the transcoder spawn failed; a non-zero exit status
and a missing output file are never even inspected, and no transcode
error exists in the code. -/
theorem C3_amended_transcode_failure_ignored (rconf : RuntimeConfiguration)
    (text vc : String) (ofp : Option String) (provider : ℕ → PostOutcome)
    (tout tin : String) (evs : List Event) (content : List ℕ)
    (h : runRetry rconf text provider = (evs, .ok content))
    (heven : (strBytes tout).length % 2 = 0) (sf : Bool) :
    (synthesizeSingleHelper rconf text vc ofp provider tout tin sf).2 =
      .ok ⟨(tout.length : ℚ) / 2 / (SAMPLE_RATE : ℚ), SAMPLE_RATE, "pcm16",
           (decodeInt16LE (strBytes tout)).map fun z : ℤ => (z : ℚ) / 32768⟩ := by
  rw [synthesizeSingleHelper_retry_ok rconf text vc ofp provider tout tin sf evs content h]
  dsimp only
  exact afterSuccess_result_even ofp tout tin sf content heven

/-- Claim C3 (witness for the amended claim): fixture call with a failed
spawn. -/
theorem C3_amended_transcode_failure_ignored_witness :
    (synthesizeSingleHelper rcA "hi" "eng" none providerA tmpOutA tmpInA true).2 =
      .ok ⟨(tmpOutA.length : ℚ) / 2 / (SAMPLE_RATE : ℚ), SAMPLE_RATE, "pcm16",
           (decodeInt16LE (strBytes tmpOutA)).map fun z : ℤ => (z : ℚ) / 32768⟩ :=
  C3_amended_transcode_failure_ignored rcA "hi" "eng" none providerA tmpOutA tmpInA
    _ _ (runRetry_rcA "hi") (by decide) true

/-- Claim C4 (counterexample).  On a concrete successful call with an
output path, the data persisted there is the RAW provider response body
`[1, 2, 3, 4]` wrapped in a WAVE header, written at lines 337-348 of the
source BEFORE transcoding, and it is not the audio the returned samples
are decoded from: those come from the temp path string and differ from
the decoding of the persisted bytes. -/
theorem C4_counterexample_raw_bytes_persisted :
    wavWritesAt
        (synthesizeSingleHelper rcA "hi" "eng" (some "/tmp/speech.wav") providerA
          tmpOutA tmpInA false).1 "/tmp/speech.wav" =
      [(16000, 1, 2, [1, 2, 3, 4])] ∧
    (synthesizeSingleHelper rcA "hi" "eng" (some "/tmp/speech.wav") providerA
        tmpOutA tmpInA false).2 =
      .ok ⟨1 / 2000, 16000, "pcm16", pathSamplesA⟩ ∧
    pathSamplesA ≠ (decodeInt16LE [1, 2, 3, 4]).map fun z : ℤ => (z : ℚ) / 32768 := by
  refine ⟨by rfl, helper_result_rcA "hi" "eng" (some "/tmp/speech.wav") [1, 2, 3, 4] false, ?_⟩
  intro hcon
  have hlen := congrArg List.length hcon
  simp [pathSamplesA] at hlen
  revert hlen
  decide

/-- Claim C4 (amended).  When an output path is supplied and the retry
loop succeeds, exactly one WAVE file is written at that path: its header
declares rate 16000, one channel and two bytes per sample, and its
payload is the raw provider response body, written before the transcoding
step runs. -/
theorem C4_amended_output_gets_raw_response (rconf : RuntimeConfiguration)
    (text vc p : String) (provider : ℕ → PostOutcome) (tout tin : String)
    (sf : Bool) (evs : List Event) (content : List ℕ)
    (h : runRetry rconf text provider = (evs, .ok content)) :
    wavWritesAt (synthesizeSingleHelper rconf text vc (some p) provider tout tin sf).1 p =
      [(SAMPLE_RATE, 1, 2, content)] := by
  rw [synthesizeSingleHelper_retry_ok rconf text vc (some p) provider tout tin sf evs content h]
  dsimp only
  obtain ⟨m, hm⟩ := runRetry_trace_shape rconf text provider
  rw [h] at hm
  dsimp only at hm
  rw [wavWritesAt_append, hm, retryBlocks_wavWritesAt, afterSuccess_wavWritesAt_self]
  rfl

/-- Claim C4 (witness for the amended claim) at the fixtures. -/
theorem C4_amended_output_gets_raw_response_witness :
    wavWritesAt
        (synthesizeSingleHelper rcA "hi" "eng" (some "/tmp/speech.wav") providerA
          tmpOutA tmpInA false).1 "/tmp/speech.wav" =
      [(SAMPLE_RATE, 1, 2, [1, 2, 3, 4])] :=
  C4_amended_output_gets_raw_response rcA "hi" "eng" "/tmp/speech.wav" providerA
    tmpOutA tmpInA false _ _ (runRetry_rcA "hi")

/-- Claim C5 (counterexample).  The voice code "xyz" is not a key of the
static catalog, yet a call with that voice code succeeds instead of
failing with a configuration error: the catalog is never consulted and
the voice id comes solely from the configuration (line 276 of the
source). -/
theorem C5_counterexample_unsupported_code_succeeds :
    LANGUAGE_TO_VOICE_CODE.lookup "xyz" = none ∧
    (synthesizeSingleHelper rcA "hi" "xyz" none providerA tmpOutA tmpInA false).2 =
      .ok ⟨1 / 2000, 16000, "pcm16", pathSamplesA⟩ :=
  ⟨by decide, helper_result_rcA "hi" "xyz" none [1, 2, 3, 4] false⟩

/-- Claim C5 (amended).  Every POST of every call addresses
`URL ++ END_POINT ++ <configured voice id>` with the configured key and
body — the locale catalog is never consulted and no error is raised for
unsupported codes — while the static catalog itself does map each of its
locale keys to a non-empty provider voice name. -/
theorem C5_amended_voice_from_config_only (rconf : RuntimeConfiguration)
    (text vc : String) (ofp : Option String) (provider : ℕ → PostOutcome)
    (tout tin : String) (sf : Bool) :
    (synthesizeSingleHelper rconf text vc ofp provider tout tin sf).1.filter isPost =
      List.replicate
        (postCount (synthesizeSingleHelper rconf text vc ofp provider tout tin sf).1)
        (.post (URL ++ END_POINT ++ rconf.eleven_labs_voice_id)
          rconf.eleven_labs_api_key acceptHeader text rconf.eleven_labs_stability
          rconf.eleven_labs_similarity_boost) ∧
    LANGUAGE_TO_VOICE_CODE.all (fun kv => !(kv.2 == "")) = true := by
  refine ⟨?_, by decide⟩
  obtain ⟨m, hm⟩ := runRetry_trace_shape rconf text provider
  rcases hr : runRetry rconf text provider with ⟨evs, res⟩
  rw [hr] at hm
  dsimp only at hm
  cases res with
  | error e =>
      rw [synthesizeSingleHelper_retry_error rconf text vc ofp provider tout tin sf evs e hr]
      dsimp only
      rw [hm, retryBlocks_filter_post, postCount, retryBlocks_filter_post]
      simp
  | ok content =>
      rw [synthesizeSingleHelper_retry_ok rconf text vc ofp provider tout tin sf evs content hr]
      dsimp only
      rw [List.filter_append, postCount_append, hm, retryBlocks_filter_post,
        afterSuccess_filter_post, retryBlocks_postCount, afterSuccess_postCount]
      simp

/-- Claim C6.  If every one of the configured attempts receives a non-200
response, the helper performs exactly that many POST calls and raises the
all-attempts-failed `ValueError` (the error the spec names
SynthesisError); no result is returned and no extra call is made. -/
theorem C6_exhausted_attempts_synthesis_error (rconf : RuntimeConfiguration)
    (text vc : String) (ofp : Option String) (provider : ℕ → PostOutcome)
    (tout tin : String) (sf : Bool)
    (hfail : ∀ k, k < rconf.tts_api_retry_attempts →
      ∃ s c, provider k = .response s c ∧ s ≠ 200) :
    (synthesizeSingleHelper rconf text vc ofp provider tout tin sf).2 =
      .error (.valueError allAttemptsFailedMsg) ∧
    postCount (synthesizeSingleHelper rconf text vc ofp provider tout tin sf).1 =
      rconf.tts_api_retry_attempts := by
  have hr : runRetry rconf text provider =
      (retryBlocks rconf.tts_api_sleep (URL ++ END_POINT ++ rconf.eleven_labs_voice_id)
        rconf.eleven_labs_api_key acceptHeader text rconf.eleven_labs_stability
        rconf.eleven_labs_similarity_boost rconf.tts_api_retry_attempts,
       .error (.valueError allAttemptsFailedMsg)) := by
    unfold runRetry
    exact retryLoop_all_non200 provider _ _ _ _ _ _ _ rconf.tts_api_retry_attempts 0
      (fun k hk => by simpa using hfail k hk)
  rw [synthesizeSingleHelper_retry_error rconf text vc ofp provider tout tin sf _ _ hr]
  exact ⟨rfl, retryBlocks_postCount _ _ _ _ _ _ _ _⟩

/-- Claim C6 witness: a provider always answering 503, with the fixture
attempt budget of three. -/
theorem C6_exhausted_attempts_synthesis_error_witness :
    (synthesizeSingleHelper rcA "hi" "eng" none (fun _ => .response 503 [])
        tmpOutA tmpInA false).2 =
      .error (.valueError allAttemptsFailedMsg) ∧
    postCount
        (synthesizeSingleHelper rcA "hi" "eng" none (fun _ => .response 503 [])
          tmpOutA tmpInA false).1 = 3 :=
  C6_exhausted_attempts_synthesis_error rcA "hi" "eng" none
    (fun _ => .response 503 []) tmpOutA tmpInA false
    (fun _ _ => ⟨503, [], rfl, by decide⟩)

/-- Claim C7.  If the first attempts-1 POST calls receive non-200 and the
next receives 200, the call succeeds, the endpoint is POSTed exactly
`attempts` times, and the sleep-POST events of the call are exactly
`attempts` blocks of one throttle sleep with the configured delay
immediately followed by one POST. -/
theorem C7_success_on_last_attempt (rconf : RuntimeConfiguration)
    (text vc : String) (ofp : Option String) (provider : ℕ → PostOutcome)
    (tout tin : String) (sf : Bool) (content : List ℕ)
    (hpos : 1 ≤ rconf.tts_api_retry_attempts)
    (hfail : ∀ k, k < rconf.tts_api_retry_attempts - 1 →
      ∃ s c, provider k = .response s c ∧ s ≠ 200)
    (hsucc : provider (rconf.tts_api_retry_attempts - 1) = .response 200 content)
    (heven : (strBytes tout).length % 2 = 0) :
    (synthesizeSingleHelper rconf text vc ofp provider tout tin sf).2 =
      .ok ⟨(tout.length : ℚ) / 2 / (SAMPLE_RATE : ℚ), SAMPLE_RATE, "pcm16",
           (decodeInt16LE (strBytes tout)).map fun z : ℤ => (z : ℚ) / 32768⟩ ∧
    postCount (synthesizeSingleHelper rconf text vc ofp provider tout tin sf).1 =
      rconf.tts_api_retry_attempts ∧
    (synthesizeSingleHelper rconf text vc ofp provider tout tin sf).1.filter
        isThrottleOrPost =
      retryBlocks rconf.tts_api_sleep (URL ++ END_POINT ++ rconf.eleven_labs_voice_id)
        rconf.eleven_labs_api_key acceptHeader text rconf.eleven_labs_stability
        rconf.eleven_labs_similarity_boost rconf.tts_api_retry_attempts := by
  obtain ⟨n, hn⟩ : ∃ n, rconf.tts_api_retry_attempts = n + 1 :=
    ⟨rconf.tts_api_retry_attempts - 1, by omega⟩
  have hr : runRetry rconf text provider =
      (retryBlocks rconf.tts_api_sleep (URL ++ END_POINT ++ rconf.eleven_labs_voice_id)
        rconf.eleven_labs_api_key acceptHeader text rconf.eleven_labs_stability
        rconf.eleven_labs_similarity_boost (n + 1), .ok content) := by
    unfold runRetry
    rw [hn]
    exact retryLoop_success_last provider _ _ _ _ _ _ _ content n 0
      (fun k hk => by simpa using hfail k (by omega))
      (by
        have h2 : provider n = .response 200 content := by
          rw [hn] at hsucc
          simpa using hsucc
        simpa using h2)
  rw [synthesizeSingleHelper_retry_ok rconf text vc ofp provider tout tin sf _ content hr]
  dsimp only
  refine ⟨afterSuccess_result_even ofp tout tin sf content heven, ?_, ?_⟩
  · rw [postCount_append, afterSuccess_postCount, retryBlocks_postCount]
    omega
  · rw [List.filter_append, retryBlocks_filter_throttleOrPost,
      afterSuccess_filter_throttleOrPost, hn]
    simp

/-- Claim C7 witness: two attempts, a 429 then a 200. -/
theorem C7_success_on_last_attempt_witness :
    (synthesizeSingleHelper rcB "hey" "eng" none providerB tmpOutA tmpInA false).2 =
      .ok ⟨(tmpOutA.length : ℚ) / 2 / (SAMPLE_RATE : ℚ), SAMPLE_RATE, "pcm16",
           (decodeInt16LE (strBytes tmpOutA)).map fun z : ℤ => (z : ℚ) / 32768⟩ ∧
    postCount
        (synthesizeSingleHelper rcB "hey" "eng" none providerB tmpOutA tmpInA false).1 = 2 ∧
    (synthesizeSingleHelper rcB "hey" "eng" none providerB tmpOutA tmpInA false).1.filter
        isThrottleOrPost =
      retryBlocks 2 (URL ++ END_POINT ++ "voiceB") "keyB" acceptHeader "hey" "0.3" "0.9" 2 :=
  C7_success_on_last_attempt rcB "hey" "eng" none providerB tmpOutA tmpInA false [7, 8]
    (by decide)
    (fun k hk => ⟨429, [], by
      have hA : rcB.tts_api_retry_attempts = 2 := rfl
      rw [hA] at hk
      have hk0 : k = 0 := by omega
      rw [hk0]
      rfl, by decide⟩)
    rfl (by decide)

/-- Claim C8.  Every successful call returns a tuple whose sample rate is
16000 and whose sample-format tag is "pcm16", whatever the provider
answered: both are hard-coded at lines 400 and 406 of the source. -/
theorem C8_fixed_output_contract (rconf : RuntimeConfiguration)
    (text vc : String) (ofp : Option String) (provider : ℕ → PostOutcome)
    (tout tin : String) (sf : Bool) (r : SynthesisResult)
    (h : (synthesizeSingleHelper rconf text vc ofp provider tout tin sf).2 = .ok r) :
    r.audio_sample_rate = 16000 ∧ r.audio_format = "pcm16" := by
  rcases hr : runRetry rconf text provider with ⟨evs, res⟩
  cases res with
  | error e =>
      rw [synthesizeSingleHelper_retry_error rconf text vc ofp provider tout tin sf evs e hr] at h
      simp at h
  | ok content =>
      rw [synthesizeSingleHelper_retry_ok rconf text vc ofp provider tout tin sf evs content hr] at h
      dsimp only at h
      by_cases hb : (strBytes tout).length % 2 = 0
      · rw [afterSuccess_result_even ofp tout tin sf content hb] at h
        simp only [Except.ok.injEq] at h
        subst h
        exact ⟨rfl, rfl⟩
      · have he : (afterSuccess ofp tout tin sf content).2 =
            .error (.valueError fromstringOddLengthMsg) := by
          unfold afterSuccess
          simp [hb]
        rw [he] at h
        simp at h

/-- Claim C8 witness at the fixtures. -/
theorem C8_fixed_output_contract_witness :
    (⟨1 / 2000, 16000, "pcm16", pathSamplesA⟩ : SynthesisResult).audio_sample_rate = 16000 ∧
    (⟨1 / 2000, 16000, "pcm16", pathSamplesA⟩ : SynthesisResult).audio_format = "pcm16" :=
  C8_fixed_output_contract rcA "hi" "eng" none providerA tmpOutA tmpInA false
    ⟨1 / 2000, 16000, "pcm16", pathSamplesA⟩
    (helper_result_rcA "hi" "eng" none [1, 2, 3, 4] false)

/-- Claim C9.  Every sample of a successful call lies in the closed
interval from -1 to 1: each is a signed 16-bit integer value (decoded at
line 407 of the source) divided by 32768. -/
theorem C9_samples_in_unit_interval (rconf : RuntimeConfiguration)
    (text vc : String) (ofp : Option String) (provider : ℕ → PostOutcome)
    (tout tin : String) (sf : Bool) (r : SynthesisResult) (q : ℚ)
    (h : (synthesizeSingleHelper rconf text vc ofp provider tout tin sf).2 = .ok r)
    (hq : q ∈ r.audio_samples) : -1 ≤ q ∧ q ≤ 1 := by
  rcases hr : runRetry rconf text provider with ⟨evs, res⟩
  cases res with
  | error e =>
      rw [synthesizeSingleHelper_retry_error rconf text vc ofp provider tout tin sf evs e hr] at h
      simp at h
  | ok content =>
      rw [synthesizeSingleHelper_retry_ok rconf text vc ofp provider tout tin sf evs content hr] at h
      dsimp only at h
      by_cases hb : (strBytes tout).length % 2 = 0
      · rw [afterSuccess_result_even ofp tout tin sf content hb] at h
        simp only [Except.ok.injEq] at h
        subst h
        dsimp only at hq
        obtain ⟨z, hz, rfl⟩ := List.mem_map.mp hq
        have hbz := decodeInt16LE_bounds (strBytes tout) (strBytes_lt tout) z hz
        exact sample_in_unit z hbz.1 hbz.2
      · have he : (afterSuccess ofp tout tin sf content).2 =
            .error (.valueError fromstringOddLengthMsg) := by
          unfold afterSuccess
          simp [hb]
        rw [he] at h
        simp at h

/-- Claim C9 witness: the first fixture sample, 29743 / 32768. -/
theorem C9_samples_in_unit_interval_witness :
    -1 ≤ ((29743 : ℤ) : ℚ) / 32768 ∧ ((29743 : ℤ) : ℚ) / 32768 ≤ 1 :=
  C9_samples_in_unit_interval rcA "hi" "eng" none providerA tmpOutA tmpInA false
    ⟨1 / 2000, 16000, "pcm16", pathSamplesA⟩ (((29743 : ℤ) : ℚ) / 32768)
    (helper_result_rcA "hi" "eng" none [1, 2, 3, 4] false)
    (List.mem_map.mpr ⟨29743, by decide, rfl⟩)

/-- Claim C10.  The helper is independent of its `voice_code` argument:
two calls differing only in the voice code produce the same trace (URL,
headers, body, file writes) and the same returned result, because the
voice identifier is read solely from the configured voice-id setting
(line 276 of the source) and `voice_code` is never used. -/
theorem C10_voice_code_has_no_effect (rconf : RuntimeConfiguration)
    (text vc1 vc2 : String) (ofp : Option String) (provider : ℕ → PostOutcome)
    (tout tin : String) (sf : Bool) :
    synthesizeSingleHelper rconf text vc1 ofp provider tout tin sf =
      synthesizeSingleHelper rconf text vc2 ofp provider tout tin sf := rfl
